import Mathlib

/-!
Verification of the change-triggered sync orchestrator in `simplesync.py`.

The script keeps a long-lived ssh process, mirrors a local directory to a
remote host with rsync on startup and on every filesystem change event, and
shuts both subsystems down on a termination signal.

The embedding makes every interaction with the outside world explicit:
the outcome of each `subprocess.Popen` spawn is an `Option Nat` parameter
(`none` models the constructor raising, `some pid` a started process), the
result of each `poll()` liveness probe is a `Bool` parameter, and every
externally visible action (spawning, printing, polling, running the rsync
command, stopping the observer, terminating the ssh process, exiting) is
recorded in an event trace.  Fallible steps return an `Outcome`:
either the next program state or `exited code` for `sys.exit(code)`.
-/

namespace SimpleSync

/-- Command-line configuration produced by `get_parser_args`
(lines 18-45 of `simplesync.py`). -/
structure Args where
  remoteuser : String
  remoteserver : String
  remoteport : Nat
  remotepath : String
  localpath : String
  verbose : Bool
deriving DecidableEq, Repr

/-- The four kinds of watchdog filesystem events. -/
inductive EventType where
  | created
  | modified
  | deleted
  | moved
deriving DecidableEq, Repr

/-- Rendering of the event kind used in the verbose log line of
`on_any_event`. -/
def EventType.str : EventType → String
  | .created => "created"
  | .modified => "modified"
  | .deleted => "deleted"
  | .moved => "moved"

/-- A filesystem change notification as delivered to `on_any_event`. -/
structure ChangeEvent where
  src_path : String
  event_type : EventType
deriving DecidableEq, Repr

/-- Externally visible actions of the program, recorded in traces. -/
inductive Ev where
  | spawnAttempt (argv : List String)
  | spawned (pid : Nat)
  | printMsg (msg : String)
  | pollCheck (pid : Nat) (alive : Bool)
  | runCommand (cmd : String)
  | observerStart
  | observerStop
  | terminateSsh (pid : Nat)
deriving DecidableEq, Repr

/-- Result of a program fragment: either it continues with a value, or the
whole process exited with the given status (`sys.exit`). -/
inductive Outcome (α : Type) where
  | ok (a : α)
  | exited (code : Nat)
deriving DecidableEq, Repr

/-- State of a `SyncOnChanges` handler after `__init__` has completed:
the parsed arguments, the two prebuilt exclusion-argument lists
(lines 57-58), the prebuilt rsync `-e` override string (line 60), and the
pid of the stored ssh process (`self.ssh_process`). -/
structure SyncState where
  args : Args
  ignored_dirs : List String
  ignored_files : List String
  rsync_ssh_config : String
  ssh_process : Nat
deriving DecidableEq, Repr

/-- The ssh multiplexing control-path pattern, written identically in the
ssh spawn argument list (line 78) and the rsync `-e` override (line 60). -/
def sshControlPath : String := "~/.ssh/%r@%h:%p_%l"

/-- The argument vector for the background ssh process
(`ssh_process_list`, lines 68-80). -/
def ssh_process_list (a : Args) : List String :=
  ["ssh", "-T", "-l", a.remoteuser, "-p", toString a.remoteport,
   "-o", "LogLevel=error", "-oControlMaster=auto",
   "-oControlPath=" ++ sshControlPath, a.remoteserver]

/-- The rsync remote-shell override string (`self.rsync_ssh_config`,
line 60): same port and same control path as the ssh spawn. -/
def mkRsyncSshConfig (port : Nat) : String :=
  "\x27ssh -p " ++ toString port ++ " -o LogLevel=error -oControlPath=" ++
    sshControlPath ++ "\x27"

/-- One directory exclusion argument per pattern, unquoted (line 57). -/
def excludeDirArgs (dirs : List String) : List String :=
  dirs.map (fun ignore => "--exclude=" ++ ignore)

/-- One file exclusion argument per pattern, single-quoted (line 58). -/
def excludeFileArgs (files : List String) : List String :=
  files.map (fun ignore => "--exclude=\x27" ++ ignore ++ "\x27")

/-- `setup_ssh` (lines 65-90): attempt to spawn the ssh process.  On
success the new pid is returned; on a raising spawn the error message is
printed and the process exits with status 1. -/
def setup_ssh (a : Args) (spawn : Option Nat) : List Ev × Outcome Nat :=
  match spawn with
  | some pid =>
      ([.spawnAttempt (ssh_process_list a), .spawned pid], .ok pid)
  | none =>
      ([.spawnAttempt (ssh_process_list a),
        .printMsg "Failed to establish SSH connection"], .exited 1)

/-- The handler state assembled by `__init__` (lines 56-60) around the pid
of the spawned ssh process. -/
def initState (a : Args) (dirs files : List String) (pid : Nat) : SyncState :=
  { args := a
    ignored_dirs := excludeDirArgs dirs
    ignored_files := excludeFileArgs files
    rsync_ssh_config := mkRsyncSshConfig a.remoteport
    ssh_process := pid }

/-- `SyncOnChanges.__init__` (lines 51-63): build the exclusion argument
lists and the rsync ssh override once, then establish the ssh connection. -/
def mkSync (a : Args) (dirs files : List String) (spawn : Option Nat) :
    List Ev × Outcome SyncState :=
  match setup_ssh a spawn with
  | (tr, .ok pid) => (tr, .ok (initState a dirs files pid))
  | (tr, .exited c) => (tr, .exited c)

/-- `check_ssh` (lines 92-98): poll the stored ssh process; if it has died
(`poll() is not None`, i.e. `pollDead = true`), log and re-run `setup_ssh`,
storing the replacement pid. -/
def check_ssh (st : SyncState) (pollDead : Bool) (spawn : Option Nat) :
    List Ev × Outcome SyncState :=
  if pollDead then
    match setup_ssh st.args spawn with
    | (tr, .ok pid) =>
        (.pollCheck st.ssh_process false ::
           .printMsg "SSH process died. Restarting..." :: tr,
         .ok { st with ssh_process := pid })
    | (tr, .exited c) =>
        (.pollCheck st.ssh_process false ::
           .printMsg "SSH process died. Restarting..." :: tr,
         .exited c)
  else
    ([.pollCheck st.ssh_process true], .ok st)

/-- The rsync destination string `user@host:remotepath` (lines 107-109). -/
def remoteDest (a : Args) : String :=
  a.remoteuser ++ "@" ++ a.remoteserver ++ ":" ++ a.remotepath

/-- The rsync argument list (`command_list`, lines 111-126): fixed flags,
the `-e` override, the exclusion arguments, source and destination; in
verbose mode `--verbose` is inserted at index 3. -/
def command_list (st : SyncState) : List String :=
  let cl : List String :=
    ["rsync", "-azrP", "--no-motd", "-i", "--out-format=\x27%i %n%L\x27",
     "--delete", "-e", st.rsync_ssh_config] ++
      (st.ignored_dirs ++ st.ignored_files) ++
      [st.args.localpath, remoteDest st.args]
  if st.args.verbose then cl.insertIdx 3 "--verbose" else cl

/-- The shell command string passed to `os.system` (line 129). -/
def joinCmd (cl : List String) : String := String.intercalate " " cl

/-- `rsync_exec` (lines 100-129): health-check the ssh session, then build
and run the rsync command (printing it first when verbose). -/
def rsync_exec (st : SyncState) (pollDead : Bool) (spawn : Option Nat) :
    List Ev × Outcome SyncState :=
  match check_ssh st pollDead spawn with
  | (tr, .exited c) => (tr, .exited c)
  | (tr, .ok st') =>
      let cmd := joinCmd (command_list st')
      let vp : List Ev := if st'.args.verbose then [.printMsg cmd] else []
      (tr ++ vp ++ [.runCommand cmd], .ok st')

/-- `on_start` (lines 131-136): optional verbose log, then one mirror
invocation. -/
def on_start (st : SyncState) (pollDead : Bool) (spawn : Option Nat) :
    List Ev × Outcome SyncState :=
  let pre : List Ev :=
    if st.args.verbose then [.printMsg "Sync on start."] else []
  match rsync_exec st pollDead spawn with
  | (tr, o) => (pre ++ tr, o)

/-- `on_any_event` (lines 138-143): optional verbose log of path and kind,
then one mirror invocation, for every event regardless of kind or path. -/
def on_any_event (st : SyncState) (ev : ChangeEvent) (pollDead : Bool)
    (spawn : Option Nat) : List Ev × Outcome SyncState :=
  let pre : List Ev :=
    if st.args.verbose then
      [.printMsg (ev.src_path ++ " has been " ++ ev.event_type.str ++ ".")]
    else []
  match rsync_exec st pollDead spawn with
  | (tr, o) => (pre ++ tr, o)

/-- The watching phase: the observer delivers each `ChangeEvent` in order to
`on_any_event`; each delivery comes with the poll result and spawn outcome
the environment would produce at that moment. -/
def processEvents (st : SyncState) :
    List (ChangeEvent × Bool × Option Nat) → List Ev × Outcome SyncState
  | [] => ([], .ok st)
  | (ev, d, s) :: rest =>
      match on_any_event st ev d s with
      | (tr, .exited c) => (tr, .exited c)
      | (tr, .ok st') =>
          match processEvents st' rest with
          | (tr', o) => (tr ++ tr', o)

/-- The `__main__` block (lines 146-170): construct the handler (spawning
ssh), run the startup sync, then start the observer and dispatch events. -/
def mainRun (a : Args) (dirs files : List String) (initSpawn : Option Nat)
    (startPoll : Bool) (startSpawn : Option Nat)
    (evs : List (ChangeEvent × Bool × Option Nat)) :
    List Ev × Outcome SyncState :=
  match mkSync a dirs files initSpawn with
  | (tr, .exited c) => (tr, .exited c)
  | (tr, .ok st) =>
      match on_start st startPoll startSpawn with
      | (tr1, .exited c) => (tr ++ tr1, .exited c)
      | (tr1, .ok st1) =>
          match processEvents st1 evs with
          | (tr2, o) => (tr ++ tr1 ++ [.observerStart] ++ tr2, o)

/-- The POSIX signals the script interacts with. -/
inductive Sig where
  | sigint
  | sigterm
  | other
deriving DecidableEq, Repr

/-- Which signals are wired to `stop_sync` (lines 160 and 163): SIGINT and
SIGTERM only. -/
def handlesSignal : Sig → Bool
  | .sigint => true
  | .sigterm => true
  | .other => false

/-- `stop_sync` (lines 151-157): print, stop the observer, terminate the
ssh process, and exit with status 0. -/
def stop_sync (st : SyncState) : List Ev × Nat :=
  ([.printMsg "Sync stopped by user.", .observerStop,
    .terminateSsh st.ssh_process], 0)

/-- The signal table installed by `__main__` (lines 160 and 163): a
handled signal dispatches to `stop_sync`, any other signal is not
handled. -/
def signalDispatch (sig : Sig) (st : SyncState) : Option (List Ev × Nat) :=
  if handlesSignal sig then some (stop_sync st) else none

/-- Recognizer for mirror-command executions in a trace. -/
def isRun : Ev → Bool
  | .runCommand _ => true
  | _ => false

/-- Number of mirror-command executions in a trace. -/
def countRun (tr : List Ev) : Nat := tr.countP (fun e => isRun e)

/-- Sample configuration from the spec scenario: `alice@10.0.0.5`,
port 2222, remote `/home/alice/proj`, local `/tmp/proj`, non-verbose. -/
def demoArgs : Args :=
  { remoteuser := "alice", remoteserver := "10.0.0.5", remoteport := 2222,
    remotepath := "/home/alice/proj", localpath := "/tmp/proj",
    verbose := false }

/-- Ignored directory patterns of the spec scenario. -/
def scenarioDirs : List String := [".git", "node_modules"]

/-- Ignored file patterns of the spec scenario. -/
def scenarioFiles : List String := ["*.log"]

/-- The handler state produced by a successful `__init__` on the scenario
configuration, with ssh pid 5. -/
def demoState : SyncState := initState demoArgs scenarioDirs scenarioFiles 5

/-- A sample change event. -/
def demoEvent : ChangeEvent := { src_path := "/tmp/proj/a.txt", event_type := .modified }

/-- Any configuration, specialized to the spec scenario identity: user
`alice`, host `10.0.0.5`, remote path `/home/alice/proj`. -/
def aliceArgs (a : Args) : Args :=
  { a with
    remoteuser := "alice"
    remoteserver := "10.0.0.5"
    remotepath := "/home/alice/proj" }

/-- Explicit cons form of the rsync command list in both verbose modes. -/
theorem command_list_eq (st : SyncState) :
    command_list st =
      if st.args.verbose then
        "rsync" :: "-azrP" :: "--no-motd" :: "--verbose" :: "-i" ::
          "--out-format=\x27%i %n%L\x27" :: "--delete" :: "-e" ::
          st.rsync_ssh_config ::
          ((st.ignored_dirs ++ st.ignored_files) ++
            [st.args.localpath, remoteDest st.args])
      else
        "rsync" :: "-azrP" :: "--no-motd" :: "-i" ::
          "--out-format=\x27%i %n%L\x27" :: "--delete" :: "-e" ::
          st.rsync_ssh_config ::
          ((st.ignored_dirs ++ st.ignored_files) ++
            [st.args.localpath, remoteDest st.args]) := by
  unfold command_list
  cases hv : st.args.verbose <;> simp only [hv, if_true, if_false] <;> rfl

/-- The rsync command list does not depend on the stored ssh pid. -/
theorem command_list_ssh_irrel (st : SyncState) (pid : Nat) :
    command_list { st with ssh_process := pid } = command_list st := rfl

/-- The command list of a freshly constructed handler, non-verbose mode. -/
theorem command_list_initState_nv (a : Args) (dirs files : List String)
    (pid : Nat) (hv : a.verbose = false) :
    command_list (initState a dirs files pid) =
      "rsync" :: "-azrP" :: "--no-motd" :: "-i" ::
        "--out-format=\x27%i %n%L\x27" :: "--delete" :: "-e" ::
        mkRsyncSshConfig a.remoteport ::
        ((excludeDirArgs dirs ++ excludeFileArgs files) ++
          [a.localpath, remoteDest a]) := by
  rw [command_list_eq]
  simp [initState, hv]

/-- The command list of a freshly constructed handler, verbose mode:
`--verbose` is inserted at index 3. -/
theorem command_list_initState_v (a : Args) (dirs files : List String)
    (pid : Nat) (hv : a.verbose = true) :
    command_list (initState a dirs files pid) =
      "rsync" :: "-azrP" :: "--no-motd" :: "--verbose" :: "-i" ::
        "--out-format=\x27%i %n%L\x27" :: "--delete" :: "-e" ::
        mkRsyncSshConfig a.remoteport ::
        ((excludeDirArgs dirs ++ excludeFileArgs files) ++
          [a.localpath, remoteDest a]) := by
  rw [command_list_eq]
  simp [initState, hv]

/-- `rsync_exec` on a live session: poll, optional verbose print, run. -/
theorem rsync_exec_alive (st : SyncState) (s : Option Nat) :
    rsync_exec st false s =
      (Ev.pollCheck st.ssh_process true ::
        ((if st.args.verbose then
            [Ev.printMsg (joinCmd (command_list st))] else []) ++
          [Ev.runCommand (joinCmd (command_list st))]),
       .ok st) := rfl

/-- `rsync_exec` on a dead session with a successful respawn: poll, log,
spawn, then run against the replacement session. -/
theorem rsync_exec_dead_ok (st : SyncState) (pid : Nat) :
    rsync_exec st true (some pid) =
      (Ev.pollCheck st.ssh_process false ::
        Ev.printMsg "SSH process died. Restarting..." ::
        Ev.spawnAttempt (ssh_process_list st.args) ::
        Ev.spawned pid ::
        ((if st.args.verbose then
            [Ev.printMsg (joinCmd (command_list st))] else []) ++
          [Ev.runCommand (joinCmd (command_list st))]),
       .ok { st with ssh_process := pid }) := rfl

/-- `rsync_exec` on a dead session whose respawn raises: the process exits
with status 1 and no rsync command is run. -/
theorem rsync_exec_dead_fail (st : SyncState) :
    rsync_exec st true none =
      ([Ev.pollCheck st.ssh_process false,
        Ev.printMsg "SSH process died. Restarting...",
        Ev.spawnAttempt (ssh_process_list st.args),
        Ev.printMsg "Failed to establish SSH connection"],
       .exited 1) := rfl

/-- `mkSync` with a successful spawn. -/
theorem mkSync_some (a : Args) (dirs files : List String) (pid : Nat) :
    mkSync a dirs files (some pid) =
      ([Ev.spawnAttempt (ssh_process_list a), Ev.spawned pid],
       .ok (initState a dirs files pid)) := rfl

/-- `mkSync` with a raising spawn. -/
theorem mkSync_none (a : Args) (dirs files : List String) :
    mkSync a dirs files none =
      ([Ev.spawnAttempt (ssh_process_list a),
        Ev.printMsg "Failed to establish SSH connection"], .exited 1) := rfl

/-- `on_start` routes through `rsync_exec`, prefixing only a log line. -/
theorem on_start_eq (st : SyncState) (d : Bool) (s : Option Nat) :
    on_start st d s =
      ((if st.args.verbose then [Ev.printMsg "Sync on start."] else []) ++
        (rsync_exec st d s).1, (rsync_exec st d s).2) := rfl

/-- `on_any_event` routes through `rsync_exec`, prefixing only a log line. -/
theorem on_any_event_eq (st : SyncState) (ev : ChangeEvent) (d : Bool)
    (s : Option Nat) :
    on_any_event st ev d s =
      ((if st.args.verbose then
          [Ev.printMsg (ev.src_path ++ " has been " ++ ev.event_type.str ++ ".")]
        else []) ++
        (rsync_exec st d s).1, (rsync_exec st d s).2) := rfl

/-- In a trace of the form `init ++ [runCommand cmd]` where `init` holds no
run event, the run event sits exactly at index `init.length`. -/
theorem runCommand_index (init : List Ev) (cmd : String)
    (hinit : ∀ c, Ev.runCommand c ∉ init) (j : Nat) (c : String)
    (hj : (init ++ [Ev.runCommand cmd])[j]? = some (Ev.runCommand c)) :
    j = init.length := by
  rw [List.getElem?_append] at hj
  by_cases hlt : j < init.length
  · rw [if_pos hlt] at hj
    exact absurd (List.getElem?_mem hj) (hinit c)
  · rw [if_neg hlt] at hj
    by_contra hne
    rcases hk : j - init.length with _ | k
    · omega
    · rw [hk] at hj
      simp at hj

/-- Traces split over `++` for the run counter. -/
theorem countRun_append (l₁ l₂ : List Ev) :
    countRun (l₁ ++ l₂) = countRun l₁ + countRun l₂ :=
  List.countP_append _ _ _

/-- A verbose-print prefix contains no run event. -/
theorem countRun_vp (b : Bool) (m : String) :
    countRun (if b then [Ev.printMsg m] else []) = 0 := by
  cases b <;> rfl

/-- Aggregate facts about one mirror invocation: every run event carries
the command built from the invoking state, at most one run event occurs,
and a successful invocation runs exactly once while preserving every
configuration field of the state. -/
theorem rsync_exec_facts (st : SyncState) (d : Bool) (s : Option Nat) :
    (∀ c, Ev.runCommand c ∈ (rsync_exec st d s).1 →
        c = joinCmd (command_list st)) ∧
    countRun (rsync_exec st d s).1 ≤ 1 ∧
    (∀ st2, (rsync_exec st d s).2 = .ok st2 →
        countRun (rsync_exec st d s).1 = 1 ∧
        st2.args = st.args ∧
        st2.ignored_dirs = st.ignored_dirs ∧
        st2.ignored_files = st.ignored_files ∧
        st2.rsync_ssh_config = st.rsync_ssh_config ∧
        command_list st2 = command_list st) := by
  cases d
  · rw [rsync_exec_alive]
    cases hv : st.args.verbose <;>
      simp [hv, countRun, List.countP, List.countP.go, isRun]
  · cases s
    · rw [rsync_exec_dead_fail]
      simp [countRun, List.countP, List.countP.go, isRun]
    · rw [rsync_exec_dead_ok]
      cases hv : st.args.verbose <;>
        simp [hv, countRun, List.countP, List.countP.go, isRun] <;> rfl

/-- Every invocation trace starts with the liveness poll of the stored
ssh process. -/
theorem rsync_exec_head (st : SyncState) (d : Bool) (s : Option Nat) :
    (rsync_exec st d s).1[0]? = some (Ev.pollCheck st.ssh_process (!d)) := by
  cases d <;> cases s <;>
    simp [rsync_exec_alive, rsync_exec_dead_fail, rsync_exec_dead_ok]

/-- No invocation trace runs the mirror command at index 0: the liveness
poll strictly precedes any command execution. -/
theorem rsync_exec_run_pos (st : SyncState) (d : Bool) (s : Option Nat)
    (j : Nat) (c : String)
    (hj : (rsync_exec st d s).1[j]? = some (Ev.runCommand c)) : 0 < j := by
  cases d
  · rw [rsync_exec_alive] at hj
    rcases j with _ | j
    · simp at hj
    · omega
  · cases s
    · rw [rsync_exec_dead_fail] at hj
      rcases j with _ | j
      · simp at hj
      · omega
    · rw [rsync_exec_dead_ok] at hj
      rcases j with _ | j
      · simp at hj
      · omega

/-- A verbose-print prefix never contains a run event. -/
theorem run_not_mem_vp (b : Bool) (m : String) (c : String) :
    Ev.runCommand c ∉ (if b then [Ev.printMsg m] else []) := by
  cases b <;> simp

/-- One event dispatch: every run event carries the command built from the
dispatching state, and a successful dispatch preserves all configuration
fields. -/
theorem on_any_event_facts (st : SyncState) (ev : ChangeEvent) (d : Bool)
    (s : Option Nat) :
    (∀ c, Ev.runCommand c ∈ (on_any_event st ev d s).1 →
        c = joinCmd (command_list st)) ∧
    (∀ st2, (on_any_event st ev d s).2 = .ok st2 →
        st2.args = st.args ∧
        st2.ignored_dirs = st.ignored_dirs ∧
        st2.ignored_files = st.ignored_files ∧
        st2.rsync_ssh_config = st.rsync_ssh_config ∧
        command_list st2 = command_list st) := by
  obtain ⟨h1, _, h3⟩ := rsync_exec_facts st d s
  have e1 : (on_any_event st ev d s).1 =
      (if st.args.verbose then
        [Ev.printMsg (ev.src_path ++ " has been " ++ ev.event_type.str ++ ".")]
       else []) ++ (rsync_exec st d s).1 := by rw [on_any_event_eq]
  have e2 : (on_any_event st ev d s).2 = (rsync_exec st d s).2 := by
    rw [on_any_event_eq]
  constructor
  · intro c hc
    rw [e1] at hc
    rcases List.mem_append.mp hc with h | h
    · exact absurd h (run_not_mem_vp _ _ c)
    · exact h1 c h
  · intro st2 h
    rw [e2] at h
    exact (h3 st2 h).2

/-- The startup sync: every run event carries the command built from the
starting state, and a successful pass preserves all configuration fields. -/
theorem on_start_facts (st : SyncState) (d : Bool) (s : Option Nat) :
    (∀ c, Ev.runCommand c ∈ (on_start st d s).1 →
        c = joinCmd (command_list st)) ∧
    (∀ st2, (on_start st d s).2 = .ok st2 →
        st2.args = st.args ∧
        st2.ignored_dirs = st.ignored_dirs ∧
        st2.ignored_files = st.ignored_files ∧
        st2.rsync_ssh_config = st.rsync_ssh_config ∧
        command_list st2 = command_list st) := by
  obtain ⟨h1, _, h3⟩ := rsync_exec_facts st d s
  have e1 : (on_start st d s).1 =
      (if st.args.verbose then [Ev.printMsg "Sync on start."] else []) ++
        (rsync_exec st d s).1 := by rw [on_start_eq]
  have e2 : (on_start st d s).2 = (rsync_exec st d s).2 := by
    rw [on_start_eq]
  constructor
  · intro c hc
    rw [e1] at hc
    rcases List.mem_append.mp hc with h | h
    · exact absurd h (run_not_mem_vp _ _ c)
    · exact h1 c h
  · intro st2 h
    rw [e2] at h
    exact (h3 st2 h).2

/-- The watching phase: every run event carries the command built from the
state at the start of the phase, and configuration fields are preserved
through every dispatch. -/
theorem processEvents_facts (evs : List (ChangeEvent × Bool × Option Nat)) :
    ∀ st : SyncState,
      (∀ c, Ev.runCommand c ∈ (processEvents st evs).1 →
          c = joinCmd (command_list st)) ∧
      (∀ st2, (processEvents st evs).2 = .ok st2 →
          st2.args = st.args ∧
          st2.ignored_dirs = st.ignored_dirs ∧
          st2.ignored_files = st.ignored_files ∧
          st2.rsync_ssh_config = st.rsync_ssh_config ∧
          command_list st2 = command_list st) := by
  induction evs with
  | nil =>
      intro st
      constructor
      · intro c hc
        simp [processEvents] at hc
      · intro st2 h
        simp [processEvents] at h
        simp [← h]
  | cons e rest ih =>
      intro st
      obtain ⟨ev, d, s⟩ := e
      obtain ⟨f1, f2⟩ := on_any_event_facts st ev d s
      rcases ho : on_any_event st ev d s with ⟨tr, o⟩
      cases o with
      | exited c0 =>
          have hpe : processEvents st ((ev, d, s) :: rest) = (tr, .exited c0) := by
            simp [processEvents, ho]
          constructor
          · intro c hc
            rw [hpe] at hc
            exact f1 c (by rw [ho]; exact hc)
          · intro st2 h
            rw [hpe] at h
            simp at h
      | ok st' =>
          rcases hp : processEvents st' rest with ⟨tr', o'⟩
          have hpe : processEvents st ((ev, d, s) :: rest) = (tr ++ tr', o') := by
            simp [processEvents, ho, hp]
          obtain ⟨g1, g2⟩ := ih st'
          obtain ⟨ha, hd, hf, hr, hcl⟩ := f2 st' (by rw [ho])
          constructor
          · intro c hc
            rw [hpe] at hc
            rcases List.mem_append.mp hc with h | h
            · exact f1 c (by rw [ho]; exact h)
            · have := g1 c (by rw [hp]; exact h)
              rw [this, hcl]
          · intro st2 h
            rw [hpe] at h
            obtain ⟨ga, gd, gf, gr, gcl⟩ := g2 st2 (by rw [hp]; exact h)
            exact ⟨ga.trans ha, gd.trans hd, gf.trans hf, gr.trans hr,
              gcl.trans hcl⟩

/-- C1: every mirror invocation polls the stored ssh process before the
mirror command runs (the poll is the first trace event and every run event
comes strictly later); if the process is observed dead and the respawn
succeeds, the invocation proceeds with exactly the replacement pid stored
and the run event comes only after the spawn; if the respawn raises, the
process exits and no mirror command runs, so an invocation never runs
against a session known to be dead; a live poll leaves the session
untouched. -/
theorem C1_liveness_check_before_mirror (st : SyncState) (d : Bool)
    (s : Option Nat) :
    (rsync_exec st d s).1[0]? = some (Ev.pollCheck st.ssh_process (!d)) ∧
    (∀ j c, (rsync_exec st d s).1[j]? = some (Ev.runCommand c) → 0 < j) ∧
    (∀ pid, d = true → s = some pid →
        (rsync_exec st d s).2 = .ok { st with ssh_process := pid } ∧
        ∃ k : Nat, (rsync_exec st d s).1[k]? = some (Ev.spawned pid) ∧
          ∀ (j : Nat) (c : String),
            (rsync_exec st d s).1[j]? = some (Ev.runCommand c) → k < j) ∧
    (d = true → s = none →
        (rsync_exec st d s).2 = .exited 1 ∧
        countRun (rsync_exec st d s).1 = 0) ∧
    (d = false → (rsync_exec st d s).2 = .ok st) := by
  refine ⟨rsync_exec_head st d s, fun j c hj => rsync_exec_run_pos st d s j c hj,
    ?_, ?_, ?_⟩
  · intro pid hd hs
    subst hd
    subst hs
    rw [rsync_exec_dead_ok]
    refine ⟨rfl, 3, ?_, ?_⟩
    · cases hv : st.args.verbose <;> simp [hv]
    · intro j c hj
      cases hv : st.args.verbose <;> simp only [hv] at hj
      · have hidx := runCommand_index
          [Ev.pollCheck st.ssh_process false,
           Ev.printMsg "SSH process died. Restarting...",
           Ev.spawnAttempt (ssh_process_list st.args),
           Ev.spawned pid]
          (joinCmd (command_list st)) (by simp) j c (by simpa using hj)
        simp at hidx
        omega
      · have hidx := runCommand_index
          [Ev.pollCheck st.ssh_process false,
           Ev.printMsg "SSH process died. Restarting...",
           Ev.spawnAttempt (ssh_process_list st.args),
           Ev.spawned pid, Ev.printMsg (joinCmd (command_list st))]
          (joinCmd (command_list st)) (by simp) j c (by simpa using hj)
        simp at hidx
        omega
  · intro hd hs
    subst hd
    subst hs
    rw [rsync_exec_dead_fail]
    exact ⟨rfl, rfl⟩
  · intro hd
    subst hd
    rw [rsync_exec_alive]

/-- Witness for C1: the scenario state with a dead session and respawn
pid 7 stores exactly the replacement session, after polling first. -/
theorem C1_liveness_check_before_mirror_witness :
    (rsync_exec demoState true (some 7)).2 =
      .ok { demoState with ssh_process := 7 } ∧
    (rsync_exec demoState true (some 7)).1[0]? =
      some (Ev.pollCheck demoState.ssh_process false) := by
  have h := C1_liveness_check_before_mirror demoState true (some 7)
  exact ⟨(h.2.2.1 7 rfl rfl).1, h.1⟩

/-- C2: the mirror command of a constructed handler carries the archive,
compress, recursive, partial-resumption flag bundle `-azrP`, the itemized
output flags, `--delete`, the `-e` remote-shell override built from the
same port and multiplexing control path as the ssh spawn arguments, every
exclusion argument, and ends with the local path as source and
`user@host:remotepath` as destination; on the spec scenario configuration
the destination equals `alice@10.0.0.5:/home/alice/proj`. -/
theorem C2_command_shape (a : Args) (dirs files : List String)
    (s : Option Nat) (tr : List Ev) (st : SyncState)
    (h : mkSync a dirs files s = (tr, .ok st)) :
    "-azrP" ∈ command_list st ∧
    "-i" ∈ command_list st ∧
    "--out-format=\x27%i %n%L\x27" ∈ command_list st ∧
    "--delete" ∈ command_list st ∧
    (∃ k : Nat, (command_list st)[k]? = some "-e" ∧
        (command_list st)[k + 1]? = some (mkRsyncSshConfig a.remoteport)) ∧
    mkRsyncSshConfig a.remoteport =
      "\x27ssh -p " ++ toString a.remoteport ++
        " -o LogLevel=error -oControlPath=" ++ sshControlPath ++ "\x27" ∧
    (∃ m : Nat, (ssh_process_list a)[m]? = some "-p" ∧
        (ssh_process_list a)[m + 1]? = some (toString a.remoteport)) ∧
    ("-oControlPath=" ++ sshControlPath) ∈ ssh_process_list a ∧
    (∀ e ∈ excludeDirArgs dirs ++ excludeFileArgs files, e ∈ command_list st) ∧
    (∃ front : List String,
        command_list st = front ++ [a.localpath, remoteDest a]) ∧
    remoteDest a =
      a.remoteuser ++ "@" ++ a.remoteserver ++ ":" ++ a.remotepath ∧
    remoteDest (aliceArgs a) = "alice@10.0.0.5:/home/alice/proj" := by
  cases s with
  | none =>
      rw [mkSync_none] at h
      simp at h
  | some pid =>
      rw [mkSync_some] at h
      injection h with h1 h2
      injection h2 with h3
      subst h3
      cases hv : a.verbose
      · simp only [command_list_initState_nv a dirs files pid hv]
        refine ⟨by simp, by simp, by simp, by simp, ⟨6, by simp, by simp⟩,
          rfl, ⟨4, by simp [ssh_process_list], by simp [ssh_process_list]⟩,
          by simp [ssh_process_list], ?_, ?_, rfl, rfl⟩
        · intro e he
          repeat
            apply List.mem_cons_of_mem
          exact List.mem_append_left _ he
        · exact ⟨"rsync" :: "-azrP" :: "--no-motd" :: "-i" ::
            "--out-format=\x27%i %n%L\x27" :: "--delete" :: "-e" ::
            mkRsyncSshConfig a.remoteport ::
            (excludeDirArgs dirs ++ excludeFileArgs files), rfl⟩
      · simp only [command_list_initState_v a dirs files pid hv]
        refine ⟨by simp, by simp, by simp, by simp, ⟨7, by simp, by simp⟩,
          rfl, ⟨4, by simp [ssh_process_list], by simp [ssh_process_list]⟩,
          by simp [ssh_process_list], ?_, ?_, rfl, rfl⟩
        · intro e he
          repeat
            apply List.mem_cons_of_mem
          exact List.mem_append_left _ he
        · exact ⟨"rsync" :: "-azrP" :: "--no-motd" :: "--verbose" :: "-i" ::
            "--out-format=\x27%i %n%L\x27" :: "--delete" :: "-e" ::
            mkRsyncSshConfig a.remoteport ::
            (excludeDirArgs dirs ++ excludeFileArgs files), rfl⟩

/-- Witness for C2: the scenario handler state contains the flag bundle,
and the scenario destination string. -/
theorem C2_command_shape_witness :
    "-azrP" ∈ command_list demoState ∧
    remoteDest (aliceArgs demoArgs) = "alice@10.0.0.5:/home/alice/proj" := by
  have h := C2_command_shape demoArgs scenarioDirs scenarioFiles (some 5)
    [Ev.spawnAttempt (ssh_process_list demoArgs), Ev.spawned 5] demoState rfl
  exact ⟨h.1, h.2.2.2.2.2.2.2.2.2.2.2⟩

/-- C3: every change event, of any kind and path, triggers exactly one
mirror invocation when it completes (never more than one), the liveness
check precedes any command execution in the handler trace, and the
handler's outcome does not depend on the event's kind or path. -/
theorem C3_every_event_triggers_one_pass (st : SyncState) (ev : ChangeEvent)
    (d : Bool) (s : Option Nat) :
    countRun (on_any_event st ev d s).1 ≤ 1 ∧
    (∀ st2, (on_any_event st ev d s).2 = .ok st2 →
        countRun (on_any_event st ev d s).1 = 1) ∧
    (∀ (j : Nat) (c : String),
        (on_any_event st ev d s).1[j]? = some (Ev.runCommand c) →
        ∃ (i : Nat) (b : Bool), i < j ∧
          (on_any_event st ev d s).1[i]? =
            some (Ev.pollCheck st.ssh_process b)) ∧
    (∀ ev2 : ChangeEvent,
        (on_any_event st ev2 d s).2 = (on_any_event st ev d s).2) := by
  obtain ⟨-, hle, hok⟩ := rsync_exec_facts st d s
  have e1 : (on_any_event st ev d s).1 =
      (if st.args.verbose then
        [Ev.printMsg (ev.src_path ++ " has been " ++ ev.event_type.str ++ ".")]
       else []) ++ (rsync_exec st d s).1 := by rw [on_any_event_eq]
  have e2 : (on_any_event st ev d s).2 = (rsync_exec st d s).2 := by
    rw [on_any_event_eq]
  refine ⟨?_, ?_, ?_, ?_⟩
  · rw [e1, countRun_append, countRun_vp]
    omega
  · intro st2 h
    rw [e2] at h
    rw [e1, countRun_append, countRun_vp]
    have := (hok st2 h).1
    omega
  · intro j c hj
    rw [e1] at hj
    rw [e1]
    cases hv : st.args.verbose <;> simp only [hv, if_true, if_false] at hj ⊢
    · exact ⟨0, !d, rsync_exec_run_pos st d s j c hj,
        rsync_exec_head st d s⟩
    · rcases j with _ | j
      · simp at hj
      · simp only [List.cons_append, List.getElem?_cons_succ] at hj
        have hp := rsync_exec_run_pos st d s j c hj
        refine ⟨1, !d, by omega, ?_⟩
        simpa using rsync_exec_head st d s
  · intro ev2
    have e2' : (on_any_event st ev2 d s).2 = (rsync_exec st d s).2 := by
      rw [on_any_event_eq]
    exact e2'.trans e2.symm

/-- Witness for C3: a modified-file event on the scenario state with a
live session triggers exactly one mirror invocation. -/
theorem C3_every_event_triggers_one_pass_witness :
    countRun (on_any_event demoState demoEvent false none).1 = 1 := by
  have h := C3_every_event_triggers_one_pass demoState demoEvent false none
  exact h.2.1 demoState rfl

/-- C4: a run whose startup succeeds performs exactly one mirror pass
(and the connection setup performs none) before the observer start marker,
after which all event-triggered passes occur; with zero change events the
whole run still contains exactly that one pass. -/
theorem C4_initial_pass_before_watching (a : Args) (dirs files : List String)
    (pid : Nat) (dS : Bool) (sS : Option Nat)
    (evs : List (ChangeEvent × Bool × Option Nat))
    (trI trS : List Ev) (st0 st1 : SyncState)
    (h1 : mkSync a dirs files (some pid) = (trI, .ok st0))
    (h2 : on_start st0 dS sS = (trS, .ok st1)) :
    mainRun a dirs files (some pid) dS sS evs =
      (trI ++ trS ++ [Ev.observerStart] ++ (processEvents st1 evs).1,
       (processEvents st1 evs).2) ∧
    countRun trI = 0 ∧
    countRun trS = 1 ∧
    (evs = [] →
      countRun (mainRun a dirs files (some pid) dS sS evs).1 = 1) := by
  have hm : mainRun a dirs files (some pid) dS sS evs =
      (trI ++ trS ++ [Ev.observerStart] ++ (processEvents st1 evs).1,
       (processEvents st1 evs).2) := by
    rcases hp : processEvents st1 evs with ⟨tr2, o2⟩
    simp [mainRun, h1, h2, hp]
  have hI : countRun trI = 0 := by
    rw [mkSync_some] at h1
    injection h1 with h1a h1b
    rw [← h1a]
    rfl
  have hS : countRun trS = 1 := by
    obtain ⟨-, -, hok⟩ := rsync_exec_facts st0 dS sS
    rw [on_start_eq] at h2
    injection h2 with h2a h2b
    rw [← h2a, countRun_append, countRun_vp]
    have := (hok st1 h2b).1
    omega
  refine ⟨hm, hI, hS, ?_⟩
  intro he
  subst he
  rw [hm]
  simp only [processEvents]
  rw [countRun_append, countRun_append, countRun_append, hI, hS]
  rfl

/-- Witness for C4: the scenario run with a successful spawn, a live
session at startup and zero events performs exactly one mirror pass. -/
theorem C4_initial_pass_before_watching_witness :
    countRun (mainRun demoArgs scenarioDirs scenarioFiles (some 5)
      false none []).1 = 1 := by
  have h := C4_initial_pass_before_watching demoArgs scenarioDirs
    scenarioFiles 5 false none []
    [Ev.spawnAttempt (ssh_process_list demoArgs), Ev.spawned 5]
    (Ev.pollCheck 5 true ::
      [Ev.runCommand (joinCmd (command_list demoState))])
    demoState demoState rfl rfl
  exact h.2.2.2 rfl

/-- C5: signal-triggered shutdown stops the observer strictly before the
ssh session terminate request (and no terminate request precedes the
observer stop), and exits with status 0; both the interrupt and the
termination signal are wired to this handler. -/
theorem C5_shutdown_order (st : SyncState) (sig : Sig)
    (h : handlesSignal sig = true) :
    signalDispatch sig st = some (stop_sync st) ∧
    ∃ (i j : Nat), i < j ∧
      (stop_sync st).1[i]? = some Ev.observerStop ∧
      (stop_sync st).1[j]? = some (Ev.terminateSsh st.ssh_process) ∧
      (∀ (k p : Nat),
        (stop_sync st).1[k]? = some (Ev.terminateSsh p) → i < k) ∧
      (stop_sync st).2 = 0 := by
  refine ⟨by rw [signalDispatch, if_pos h], 1, 2, by omega, rfl, rfl, ?_, rfl⟩
  intro k p hk
  rcases k with _ | _ | _ | k
  · simp [stop_sync] at hk
  · simp [stop_sync] at hk
  · omega
  · simp [stop_sync] at hk

/-- Witness for C5: an interrupt signal on the scenario state exits with
status 0. -/
theorem C5_shutdown_order_witness :
    signalDispatch Sig.sigint demoState = some (stop_sync demoState) ∧
    (stop_sync demoState).2 = 0 := by
  have h := C5_shutdown_order demoState Sig.sigint rfl
  obtain ⟨hd, i, j, -, -, -, -, h5⟩ := h
  exact ⟨hd, h5⟩

/-- C6: a raising ssh spawn prints the failure message and exits the whole
process with a non-zero status, after exactly one spawn attempt. -/
theorem C6_spawn_failure_fatal (a : Args) :
    ∃ c : Nat,
      setup_ssh a none =
        ([Ev.spawnAttempt (ssh_process_list a),
          Ev.printMsg "Failed to establish SSH connection"], .exited c) ∧
      c ≠ 0 ∧
      (setup_ssh a none).1.countP (fun e =>
        match e with
        | Ev.spawnAttempt _ => true
        | _ => false) = 1 :=
  ⟨1, rfl, by omega, rfl⟩

/-- C7: exclusion arguments are built at construction, one per pattern:
unquoted directory arguments, quoted file arguments, totalling the number
of patterns. -/
theorem C7_exclusion_args_built_once (a : Args) (dirs files : List String)
    (s : Option Nat) (tr : List Ev) (st : SyncState)
    (h : mkSync a dirs files s = (tr, .ok st)) :
    st.ignored_dirs = dirs.map (fun p => "--exclude=" ++ p) ∧
    st.ignored_files = files.map (fun p => "--exclude=\x27" ++ p ++ "\x27") ∧
    st.ignored_dirs.length = dirs.length ∧
    st.ignored_files.length = files.length ∧
    (st.ignored_dirs ++ st.ignored_files).length =
      dirs.length + files.length ∧
    (∀ p ∈ dirs, ("--exclude=" ++ p) ∈ st.ignored_dirs) ∧
    (∀ p ∈ files, ("--exclude=\x27" ++ p ++ "\x27") ∈ st.ignored_files) := by
  cases s with
  | none =>
      rw [mkSync_none] at h
      simp at h
  | some pid =>
      rw [mkSync_some] at h
      injection h with h1 h2
      injection h2 with h3
      subst h3
      refine ⟨rfl, rfl, by simp [initState, excludeDirArgs],
        by simp [initState, excludeFileArgs],
        by simp [initState, excludeDirArgs, excludeFileArgs], ?_, ?_⟩
      · intro p hp
        simp only [initState, excludeDirArgs, List.mem_map]
        exact ⟨p, hp, rfl⟩
      · intro p hp
        simp only [initState, excludeFileArgs, List.mem_map]
        exact ⟨p, hp, rfl⟩

/-- Witness for C7: the scenario exclusion lists, built at construction. -/
theorem C7_exclusion_args_built_once_witness :
    demoState.ignored_dirs = scenarioDirs.map (fun p => "--exclude=" ++ p) ∧
    (demoState.ignored_dirs ++ demoState.ignored_files).length =
      scenarioDirs.length + scenarioFiles.length := by
  have h := C7_exclusion_args_built_once demoArgs scenarioDirs scenarioFiles
    (some 5) [Ev.spawnAttempt (ssh_process_list demoArgs), Ev.spawned 5]
    demoState rfl
  exact ⟨h.1, h.2.2.2.2.1⟩

/-- C8: across one whole run, any two executed mirror commands are
identical strings — in particular they carry identical exclusion
arguments — and any surviving state still holds exactly the exclusion
argument lists built at construction: no mid-run reconfiguration. -/
theorem C8_exclusions_stable_across_run (a : Args) (dirs files : List String)
    (iS : Option Nat) (dS : Bool) (sS : Option Nat)
    (evs : List (ChangeEvent × Bool × Option Nat)) :
    (∀ c c2 : String,
        Ev.runCommand c ∈ (mainRun a dirs files iS dS sS evs).1 →
        Ev.runCommand c2 ∈ (mainRun a dirs files iS dS sS evs).1 →
        c = c2) ∧
    (∀ st2, (mainRun a dirs files iS dS sS evs).2 = .ok st2 →
        st2.ignored_dirs = excludeDirArgs dirs ∧
        st2.ignored_files = excludeFileArgs files) := by
  cases iS with
  | none =>
      have hm : mainRun a dirs files none dS sS evs =
          ([Ev.spawnAttempt (ssh_process_list a),
            Ev.printMsg "Failed to establish SSH connection"],
           .exited 1) := by
        simp [mainRun, mkSync_none]
      constructor
      · intro c c2 hc hc2
        rw [hm] at hc
        simp at hc
      · intro st2 h2
        rw [hm] at h2
        simp at h2
  | some pid =>
      obtain ⟨s1, s2⟩ := on_start_facts (initState a dirs files pid) dS sS
      rcases hs : on_start (initState a dirs files pid) dS sS with ⟨trS, oS⟩
      cases oS with
      | exited c0 =>
          have hm : mainRun a dirs files (some pid) dS sS evs =
              ([Ev.spawnAttempt (ssh_process_list a), Ev.spawned pid] ++ trS,
               .exited c0) := by
            simp [mainRun, mkSync_some, hs]
          have key : ∀ c : String,
              Ev.runCommand c ∈ (mainRun a dirs files (some pid) dS sS evs).1 →
              c = joinCmd (command_list (initState a dirs files pid)) := by
            intro c hc
            rw [hm] at hc
            rcases List.mem_append.mp hc with hI | hS
            · simp at hI
            · exact s1 c (by rw [hs]; exact hS)
          constructor
          · intro c c2 hc hc2
            rw [key c hc, key c2 hc2]
          · intro st2 h2
            rw [hm] at h2
            simp at h2
      | ok st1 =>
          obtain ⟨p1, p2⟩ := processEvents_facts evs st1
          obtain ⟨ha1, hd1, hf1, hr1, hcl1⟩ := s2 st1 (by rw [hs])
          rcases hp : processEvents st1 evs with ⟨trE, oE⟩
          have hm : mainRun a dirs files (some pid) dS sS evs =
              ([Ev.spawnAttempt (ssh_process_list a), Ev.spawned pid] ++
                (trS ++ ([Ev.observerStart] ++ trE)), oE) := by
            simp [mainRun, mkSync_some, hs, hp]
          have key : ∀ c : String,
              Ev.runCommand c ∈ (mainRun a dirs files (some pid) dS sS evs).1 →
              c = joinCmd (command_list (initState a dirs files pid)) := by
            intro c hc
            rw [hm] at hc
            rcases List.mem_append.mp hc with hI | hrest
            · simp at hI
            · rcases List.mem_append.mp hrest with hS | hrest2
              · exact s1 c (by rw [hs]; exact hS)
              · rcases List.mem_append.mp hrest2 with hO | hE
                · simp at hO
                · have := p1 c (by rw [hp]; exact hE)
                  rw [this, hcl1]
          constructor
          · intro c c2 hc hc2
            rw [key c hc, key c2 hc2]
          · intro st2 h2
            rw [hm] at h2
            replace h2 : oE = .ok st2 := h2
            obtain ⟨ga, gd, gf, gr, gcl⟩ := p2 st2 (by rw [hp]; exact h2)
            exact ⟨gd.trans hd1, gf.trans hf1⟩

/-- Witness for C8: the scenario run over one change event ends in a state
still holding the construction-time exclusion arguments. -/
theorem C8_exclusions_stable_across_run_witness :
    (mainRun demoArgs scenarioDirs scenarioFiles (some 5) false none
        [(demoEvent, false, none)]).2 = .ok demoState ∧
    demoState.ignored_dirs = excludeDirArgs scenarioDirs ∧
    demoState.ignored_files = excludeFileArgs scenarioFiles := by
  have h := C8_exclusions_stable_across_run demoArgs scenarioDirs
    scenarioFiles (some 5) false none [(demoEvent, false, none)]
  have h2 := h.2 demoState rfl
  exact ⟨rfl, h2.1, h2.2⟩

/-- C9 counterexample: on the scenario patterns (directory patterns
`.git`, `node_modules`; file pattern `*.log`) the initial handler state's
exclusion argument list has 3 entries — one per listed pattern — not 4,
both in the stored lists and in the assembled rsync command. -/
theorem C9_scenario_counterexample :
    (mkSync demoArgs scenarioDirs scenarioFiles (some 5)).2 =
      .ok demoState ∧
    (demoState.ignored_dirs ++ demoState.ignored_files).length = 3 ∧
    (demoState.ignored_dirs ++ demoState.ignored_files).length ≠ 4 ∧
    (command_list demoState).countP
      (fun e => e.take 9 = "--exclude") = 3 ∧
    (command_list demoState).countP
      (fun e => e.take 9 = "--exclude") ≠ 4 := by
  exact ⟨rfl, by decide, by decide, by decide, by decide⟩

/-- C9 amended: the scenario exclusion arguments contain one entry per
listed pattern, 3 entries in total, each present in the initial mirror
invocation's command. -/
theorem C9_scenario_exclusions_amended (s : Option Nat) (tr : List Ev)
    (st : SyncState)
    (h : mkSync demoArgs scenarioDirs scenarioFiles s = (tr, .ok st)) :
    (st.ignored_dirs ++ st.ignored_files).length = 3 ∧
    "--exclude=.git" ∈ st.ignored_dirs ∧
    "--exclude=node_modules" ∈ st.ignored_dirs ∧
    "--exclude=\x27*.log\x27" ∈ st.ignored_files ∧
    (∀ e ∈ st.ignored_dirs ++ st.ignored_files, e ∈ command_list st) := by
  cases s with
  | none =>
      rw [mkSync_none] at h
      simp at h
  | some pid =>
      rw [mkSync_some] at h
      injection h with h1 h2
      injection h2 with h3
      subst h3
      refine ⟨?_, ?_, ?_, ?_, ?_⟩
      · show (excludeDirArgs scenarioDirs ++
          excludeFileArgs scenarioFiles).length = 3
        decide
      · show "--exclude=.git" ∈ excludeDirArgs scenarioDirs
        decide
      · show "--exclude=node_modules" ∈ excludeDirArgs scenarioDirs
        decide
      · show "--exclude=\x27*.log\x27" ∈ excludeFileArgs scenarioFiles
        decide
      · intro e he
        rw [command_list_initState_nv demoArgs scenarioDirs scenarioFiles
          pid rfl]
        apply List.mem_cons_of_mem
        apply List.mem_cons_of_mem
        apply List.mem_cons_of_mem
        apply List.mem_cons_of_mem
        apply List.mem_cons_of_mem
        apply List.mem_cons_of_mem
        apply List.mem_cons_of_mem
        apply List.mem_cons_of_mem
        exact List.mem_append_left _ he

/-- Witness for the amended C9 at a concrete spawn outcome. -/
theorem C9_scenario_exclusions_amended_witness :
    (demoState.ignored_dirs ++ demoState.ignored_files).length = 3 ∧
    "--exclude=.git" ∈ demoState.ignored_dirs := by
  have h := C9_scenario_exclusions_amended (some 5)
    [Ev.spawnAttempt (ssh_process_list demoArgs), Ev.spawned 5]
    demoState rfl
  exact ⟨h.1, h.2.1⟩

/-- C10: when the pre-invocation health check finds the session dead and
the respawn raises, the process exits with status 1 and no mirror command
runs — the same fatal exit as a startup spawn failure — and the same holds
for the event-triggered path. -/
theorem C10_dead_respawn_failure_fatal (st : SyncState) :
    (rsync_exec st true none).2 = .exited 1 ∧
    countRun (rsync_exec st true none).1 = 0 ∧
    (∀ ev : ChangeEvent, (on_any_event st ev true none).2 = .exited 1) ∧
    (∀ (a : Args) (dirs files : List String),
        (mkSync a dirs files none).2 = .exited 1) := by
  refine ⟨?_, ?_, ?_, ?_⟩
  · rw [rsync_exec_dead_fail]
  · rw [rsync_exec_dead_fail]
    rfl
  · intro ev
    simp [on_any_event_eq, rsync_exec_dead_fail]
  · intro a dirs files
    rw [mkSync_none]

end SimpleSync
